import Mathlib

/-!
Shallow embedding of the matching and request-lifecycle engine of the
blood_organ repository (src/controllers/matchController.js, the request
controller in the same file, src/routes/requestRoutes.js,
src/server/routes/matchRoutes.js, src/models/Donor.js), together with
theorems settling the frozen claims about it.

Statuses, roles and blood types are strings, as in the JavaScript source.
Timestamps are integers (milliseconds). Coordinates are rational pairs; the
haversine distance function is passed as a parameter to the scoring code, so
scoring theorems quantify over the distance value it produces.
-/

namespace BloodOrgan

/-- The eight fixed blood-type strings (Donor schema enum, donorRoutes check). -/
def bloodTypes : List String := ["A+", "A-", "B+", "B-", "AB+", "AB-", "O+", "O-"]

/-- Embeds getCompatibleBloodTypes (matchController.js lines 469-482): for a
requested type, the list of donor blood types accepted for it; unknown input
yields the empty list (the JS fallback). -/
def getCompatibleBloodTypes (requestedType : String) : List String :=
  if requestedType == "A+" then ["A+", "A-", "O+", "O-"]
  else if requestedType == "A-" then ["A-", "O-"]
  else if requestedType == "B+" then ["B+", "B-", "O+", "O-"]
  else if requestedType == "B-" then ["B-", "O-"]
  else if requestedType == "AB+" then ["A+", "A-", "B+", "B-", "AB+", "AB-", "O+", "O-"]
  else if requestedType == "AB-" then ["A-", "B-", "AB-", "O-"]
  else if requestedType == "O+" then ["O+", "O-"]
  else if requestedType == "O-" then ["O-"]
  else []

/-- Modelled from the spec: the Glossary compatibility table, mapping a donor
blood type to the requester types it may serve. -/
def glossaryCompatibleRequesters (donorType : String) : List String :=
  if donorType == "O-" then ["A+", "A-", "B+", "B-", "AB+", "AB-", "O+", "O-"]
  else if donorType == "O+" then ["O+", "A+", "B+", "AB+"]
  else if donorType == "A-" then ["A-", "A+", "AB-", "AB+"]
  else if donorType == "A+" then ["A+", "AB+"]
  else if donorType == "B-" then ["B-", "B+", "AB-", "AB+"]
  else if donorType == "B+" then ["B+", "AB+"]
  else if donorType == "AB-" then ["AB-", "AB+"]
  else if donorType == "AB+" then ["AB+"]
  else []

/-- Distance tier contribution of calculateMatchScore
(matchController.js lines 509-512). -/
def distancePoints (d : ℚ) : Nat :=
  if d < 10 then 30 else if d < 25 then 20 else if d < 50 then 10 else 0

/-- Availability contribution of calculateMatchScore
(matchController.js lines 515-522). -/
def availabilityPoints (availability : String) : Nat :=
  if availability == "immediate" then 30
  else if availability == "flexible" then 20
  else 10

/-- Outcome sub-record written by reportOutcome (timestamp omitted). -/
structure OutcomeRec where
  successful : Bool
  reportedBy : Nat
  notes : String
deriving DecidableEq

/-- One entry of a status-history log (status, actor, note; schema timestamp
omitted, the Match and Request schemas are not part of the sources). -/
structure HistEntry where
  status : String
  updatedBy : Nat
  notes : String
deriving DecidableEq

/-- The Request fields the lifecycle code reads and writes; matchIds embeds
the matches array of the Request document. -/
structure RequestRec where
  hospital : Nat
  status : String
  statusHistory : List HistEntry
  matchIds : List Nat
deriving DecidableEq

/-- The Match fields the lifecycle code reads and writes. -/
structure MatchRec where
  request : Nat
  donor : Nat
  status : String
  statusHistory : List HistEntry
  outcome : Option OutcomeRec
deriving DecidableEq

/-- An authenticated actor: user id, role string, and the id of the Hospital
or Donor profile attached to that user, when one exists. -/
structure Actor where
  id : Nat
  role : String
  profileId : Option Nat
deriving DecidableEq

/-- The donor-profile fields consulted by findPotentialMatches, plus the
isAvailable flag that the Donor schema (src/models/Donor.js lines 69-72)
declares. Note the search criteria read availableForBloodDonation and
lastBloodDonationDate, names that do not occur in the Donor schema, which
instead declares isAvailable and lastDonationDate; the record carries both
so the theorems can speak about the mismatch. -/
structure DonorProfile where
  bloodType : String
  availableForBloodDonation : Bool
  lastBloodDonationDate : Option Int
  organDonor : Bool
  organsForDonation : List String
  availability : String
  location : Option (ℚ × ℚ)
  isAvailable : Bool
deriving DecidableEq

/-- A user document as queried by findPotentialMatches. -/
structure UserRec where
  id : Nat
  role : String
  status : String
  donorProfile : DonorProfile
deriving DecidableEq

/-- The Request fields consulted by the candidate search and the scorer.
hospitalLocation is the coordinates of request.hospital.location when that
path is populated, none otherwise. -/
structure RequestQuery where
  requestType : String
  bloodType : Option String
  organType : Option String
  hospitalLocation : Option (ℚ × ℚ)
deriving DecidableEq

/-- One element of the candidate list returned by findPotentialMatches. -/
structure Candidate where
  donorId : Nat
  matchScore : Nat
deriving DecidableEq

/-- Embeds calculateMatchScore (matchController.js lines 490-525): 40 points
when the donor type is in the compatibility list of the requested type, a
distance tier when both coordinate pairs are present, an availability tier,
the sum clamped to 100. The haversine function is the dist parameter. -/
def calculateMatchScore (dist : ℚ × ℚ → ℚ × ℚ → ℚ)
    (request : RequestQuery) (p : DonorProfile) : Nat :=
  let compatPoints :=
    match request.bloodType with
    | some bt => if p.bloodType ∈ getCompatibleBloodTypes bt then 40 else 0
    | none => 0
  let distPoints :=
    match request.hospitalLocation, p.location with
    | some h, some l => distancePoints (dist h l)
    | _, _ => 0
  min 100 (compatPoints + distPoints + availabilityPoints p.availability)

/-- Milliseconds per day. -/
def msPerDay : Int := 24 * 60 * 60 * 1000

/-- The 56-day deferral cutoff used in the blood search criteria
(matchController.js line 174). -/
def bloodDeferralCutoff (now : Int) : Int := now - 56 * msPerDay

/-- Embeds the blood-request criteria of findPotentialMatches
(matchController.js lines 167-176). A Mongo comparison such as the one on
lastBloodDonationDate matches no document in which the field is absent, hence
the none branch is false. -/
def bloodCriteria (request : RequestQuery) (now : Int) (p : DonorProfile) : Bool :=
  decide (p.bloodType ∈ getCompatibleBloodTypes (request.bloodType.getD ""))
    && p.availableForBloodDonation
    && (match p.lastBloodDonationDate with
        | some d => decide (d < bloodDeferralCutoff now)
        | none => false)

/-- Embeds the organ-request criteria of findPotentialMatches
(matchController.js lines 177-186). -/
def organCriteria (request : RequestQuery) (p : DonorProfile) : Bool :=
  p.organDonor
    && decide (request.organType.getD "" ∈ p.organsForDonation)
    && decide (p.bloodType ∈ getCompatibleBloodTypes (request.bloodType.getD ""))

/-- The criteria object assembled by findPotentialMatches; empty (always
true) for a request type that is neither blood nor organ. -/
def matchCriteria (request : RequestQuery) (now : Int) (p : DonorProfile) : Bool :=
  if request.requestType == "blood" then bloodCriteria request now p
  else if request.requestType == "organ" then organCriteria request p
  else true

/-- The full donor filter of findPotentialMatches: an active donor user whose
profile meets the request criteria. -/
def eligibleUser (request : RequestQuery) (now : Int) (u : UserRec) : Bool :=
  u.role == "donor" && u.status == "active" && matchCriteria request now u.donorProfile

/-- Embeds findPotentialMatches (matchController.js lines 144-207): filter the
population by the criteria, then map each surviving donor to a candidate with
a score; the population order is preserved, no sort is applied. -/
def findPotentialMatches (dist : ℚ × ℚ → ℚ × ℚ → ℚ) (request : RequestQuery)
    (users : List UserRec) (now : Int) : List Candidate :=
  (users.filter (eligibleUser request now)).map
    (fun u => { donorId := u.id, matchScore := calculateMatchScore dist request u.donorProfile })

/-- Checks that a candidate list is sorted descending by score. -/
def sortedDescByScore : List Candidate → Bool
  | [] => true
  | [_] => true
  | a :: b :: rest => decide (b.matchScore ≤ a.matchScore) && sortedDescByScore (b :: rest)

/-- The request status enum of the PATCH route validator
(src/routes/requestRoutes.js line 43). -/
def requestStatusEnum : List String :=
  ["pending", "searching", "matched", "in_progress", "completed", "cancelled"]

/-- The match status enum of the PATCH route validator
(src/server/routes/matchRoutes.js line 69). -/
def matchStatusEnum : List String :=
  ["proposed", "pending_confirmation", "confirmed", "rejected", "in_transit",
   "delivered", "transplanted", "failed"]

/-- Match statuses a donor actor may request (matchController.js line 305). -/
def donorAllowedMatchStatuses : List String :=
  ["pending_confirmation", "confirmed", "rejected"]

/-- Terminal match statuses per the spec state machine. -/
def terminalMatchStatuses : List String := ["rejected", "failed", "transplanted"]

/-- Modelled from the spec: the Request transition graph of section 4.4
(pending to searching to matched to in_progress to completed, cancelled from
any non-terminal state, matched back to searching); the Request and Match
schemas and any transition-validation code are absent from the sources. -/
def specRequestEdge (cur target : String) : Bool :=
  (cur == "pending" && target == "searching")
    || (cur == "searching" && target == "matched")
    || (cur == "matched" && target == "in_progress")
    || (cur == "in_progress" && target == "completed")
    || (cur == "matched" && target == "searching")
    || (["pending", "searching", "matched", "in_progress"].contains cur
        && target == "cancelled")

/-- Modelled from the spec: the Match transition graph of section 4.5. -/
def specMatchEdge (cur target : String) : Bool :=
  (cur == "proposed" && target == "pending_confirmation")
    || (cur == "pending_confirmation" && target == "confirmed")
    || (cur == "confirmed" && target == "in_transit")
    || (cur == "in_transit" && target == "delivered")
    || (cur == "delivered" && target == "transplanted")
    || ((cur == "proposed" || cur == "pending_confirmation") && target == "rejected")
    || (["proposed", "pending_confirmation", "confirmed", "in_transit",
         "delivered"].contains cur && target == "failed")

/-- Embeds updateRequestStatus (matchController.js lines 736-774): after the
hospital-ownership check, the new status is assigned and one history entry
pushed; no transition validation of any kind is performed. -/
def updateRequestStatus (actor : Actor) (r : RequestRec) (newStatus : String)
    (notes : String) : Except String RequestRec :=
  if actor.role == "hospital" && actor.profileId != some r.hospital then
    .error "Not authorized to update this request"
  else
    .ok { r with
          status := newStatus,
          statusHistory := r.statusHistory
            ++ [{ status := newStatus, updatedBy := actor.id, notes := notes }] }

/-- The PATCH request-status endpoint: route role guard and status enum check
(src/routes/requestRoutes.js lines 38-46) composed with the controller. -/
def patchRequestStatus (actor : Actor) (r : RequestRec) (newStatus : String)
    (notes : String) : Except String RequestRec :=
  if actor.role ∉ ["hospital", "admin", "coordinator"] then .error "Forbidden"
  else if newStatus ∉ requestStatusEnum then .error "Status is required"
  else updateRequestStatus actor r newStatus notes

/-- The permission logic of updateMatchStatus (matchController.js lines
290-314): admins and coordinators always pass, a hospital passes when it owns
the request, a donor passes on their own match but only for the three allowed
target statuses. -/
def matchPermission (actor : Actor) (m : MatchRec) (owningRequest : RequestRec)
    (newStatus : String) : Except String Unit :=
  if actor.role == "admin" || actor.role == "coordinator" then .ok ()
  else if actor.role == "hospital" then
    if actor.profileId == some owningRequest.hospital then .ok ()
    else .error "Not authorized to update this match"
  else if actor.role == "donor" then
    if actor.profileId == some m.donor then
      if newStatus ∉ donorAllowedMatchStatuses then
        .error "Donors can only confirm or reject matches"
      else .ok ()
    else .error "Not authorized to update this match"
  else .error "Not authorized to update this match"

/-- Embeds updateMatchStatus (matchController.js lines 278-339): permission
check, then the new status is assigned and one history entry pushed with no
transition-graph validation; when the new status is rejected the owning
Request is unconditionally set to searching (findByIdAndUpdate touches only
the status field, no Request history entry is pushed). -/
def updateMatchStatus (actor : Actor) (m : MatchRec) (owningRequest : RequestRec)
    (newStatus : String) (notes : String) : Except String (MatchRec × RequestRec) :=
  match matchPermission actor m owningRequest newStatus with
  | .error e => .error e
  | .ok _ =>
    let m2 : MatchRec :=
      { m with
        status := newStatus,
        statusHistory := m.statusHistory
          ++ [{ status := newStatus, updatedBy := actor.id, notes := notes }] }
    let r2 : RequestRec :=
      if newStatus == "rejected" then { owningRequest with status := "searching" }
      else owningRequest
    .ok (m2, r2)

/-- The PATCH match-status endpoint: route role guard (hospital, admin,
coordinator only) and status enum check (src/server/routes/matchRoutes.js
lines 64-72) composed with the controller. -/
def patchMatchStatus (actor : Actor) (m : MatchRec) (owningRequest : RequestRec)
    (newStatus : String) (notes : String) : Except String (MatchRec × RequestRec) :=
  if actor.role ∉ ["hospital", "admin", "coordinator"] then .error "Forbidden"
  else if newStatus ∉ matchStatusEnum then .error "Status is required"
  else updateMatchStatus actor m owningRequest newStatus notes

/-- The permission logic of reportOutcome (matchController.js lines 413-427):
admin, coordinator, or the hospital owning the match. -/
def reportOutcomePermission (actor : Actor) (owningRequest : Option RequestRec) : Bool :=
  actor.role == "admin" || actor.role == "coordinator"
    || (actor.role == "hospital"
        && match owningRequest, actor.profileId with
           | some r, some h => h == r.hospital
           | _, _ => false)

/-- Embeds reportOutcome (matchController.js lines 401-462): records the
outcome, sets the match status to the string completed on success and failed
otherwise, pushes exactly one history entry, and sets the owning Request
status to fulfilled on success and searching otherwise when the Request is
found. -/
def reportOutcome (actor : Actor) (m : MatchRec) (owningRequest : Option RequestRec)
    (successful : Bool) (notes : String) :
    Except String (MatchRec × Option RequestRec) :=
  if reportOutcomePermission actor owningRequest then
    let newStatus := if successful then "completed" else "failed"
    let m2 : MatchRec :=
      { m with
        status := newStatus,
        outcome := some { successful := successful, reportedBy := actor.id, notes := notes },
        statusHistory := m.statusHistory
          ++ [{ status := newStatus, updatedBy := actor.id, notes := notes }] }
    let r2 := owningRequest.map
      (fun r => { r with status := if successful then "fulfilled" else "searching" })
    .ok (m2, r2)
  else .error "Not authorized to report outcome for this match"

/-- Embeds confirmMatch (matchController.js lines 213-272): hospital-ownership
check, then the duplicate check, which fails when any Match for the
(Request, Donor) pair exists, with no regard to its status; otherwise a new
proposed Match is created, the Request status set to matched and the new
Match id appended to the Request. -/
def confirmMatch (actor : Actor) (existingMatches : List MatchRec) (r : RequestRec)
    (requestId donorId newMatchId : Nat) : Except String (MatchRec × RequestRec) :=
  if actor.role == "hospital" && actor.profileId != some r.hospital then
    .error "Not authorized to confirm matches for this request"
  else if existingMatches.any (fun m => m.request == requestId && m.donor == donorId) then
    .error "Match already exists for this donor and request"
  else
    .ok ({ request := requestId, donor := donorId, status := "proposed",
           statusHistory := [], outcome := none },
         { r with status := "matched", matchIds := r.matchIds ++ [newMatchId] })

/-- True when some existing Match records exactly the (Request, Donor) pair;
this is the duplicate test of confirmMatch (matchController.js lines 233-241),
which disregards the status of the existing Match. -/
def duplicateExists (ms : List MatchRec) (requestId donorId : Nat) : Bool :=
  ms.any (fun m => m.request == requestId && m.donor == donorId)

/-- Whether an Except value is a success. -/
def exceptIsOk : Except String α → Bool
  | .ok _ => true
  | .error _ => false

/-- An administrator actor used in concrete scenarios. -/
def adminActor : Actor := ⟨9, "admin", none⟩

/-- A degenerate distance function for scenarios whose donors have no
coordinates, so the distance is never consulted. -/
def distZero : ℚ × ℚ → ℚ × ℚ → ℚ := fun _ _ => 0

/-- A blood request for type O negative with no populated hospital location,
as in the search endpoint, where request.hospital is an unpopulated id. -/
def reqBloodO : RequestQuery := ⟨"blood", some "O-", none, none⟩

/-- A blood request for type O negative with hospital coordinates present. -/
def reqBloodOLoc : RequestQuery := ⟨"blood", some "O-", none, some (0, 0)⟩

/-- An O negative immediate donor with coordinates, a donation 56 days plus
deferral behind the scenario clock, available on every flag. -/
def donorNear : DonorProfile := ⟨"O-", true, some 0, false, [], "immediate", some (0, 0), true⟩

/-- An eligible donor profile with flexible availability and no coordinates. -/
def profileFlexible : DonorProfile := ⟨"O-", true, some 0, false, [], "flexible", none, true⟩

/-- An eligible donor profile with immediate availability and no coordinates. -/
def profileImmediate : DonorProfile := ⟨"O-", true, some 0, false, [], "immediate", none, true⟩

/-- A donor profile whose schema-level isAvailable flag is false while the
fields the search criteria actually read all pass. -/
def profileUnavailable : DonorProfile := ⟨"O-", true, some 0, false, [], "immediate", none, false⟩

/-- A donor profile with no recorded last blood-donation date. -/
def profileNeverDonated : DonorProfile := ⟨"O-", true, none, false, [], "immediate", none, true⟩

/-- Active donor users wrapping the profiles above. -/
def userFlexible : UserRec := ⟨1, "donor", "active", profileFlexible⟩

/-- An active donor user with immediate availability. -/
def userImmediate : UserRec := ⟨2, "donor", "active", profileImmediate⟩

/-- An active donor user whose profile has isAvailable false. -/
def userUnavailable : UserRec := ⟨42, "donor", "active", profileUnavailable⟩

/-- An active donor user who has never donated. -/
def userNeverDonated : UserRec := ⟨7, "donor", "active", profileNeverDonated⟩

/-- A scenario clock 100 days after the epoch of the donation dates above. -/
def now100 : Int := 100 * msPerDay

/-- Concrete Request records in various statuses, owned by hospital 5. -/
def reqCompleted : RequestRec := ⟨5, "completed", [], []⟩

/-- A cancelled (terminal) Request. -/
def reqCancelled : RequestRec := ⟨5, "cancelled", [], []⟩

/-- A Request currently matched. -/
def reqMatched : RequestRec := ⟨5, "matched", [], []⟩

/-- A Request currently searching. -/
def reqSearching : RequestRec := ⟨5, "searching", [], []⟩

/-- A Request currently in progress. -/
def reqInProgress : RequestRec := ⟨5, "in_progress", [], []⟩

/-- Concrete Match records between request 1 and donor 2. -/
def matchProposed : MatchRec := ⟨1, 2, "proposed", [], none⟩

/-- A delivered Match. -/
def matchDelivered : MatchRec := ⟨1, 2, "delivered", [], none⟩

/-- A transplanted (terminal) Match. -/
def matchTransplanted : MatchRec := ⟨1, 2, "transplanted", [], none⟩

/-- A rejected (terminal) Match. -/
def matchRejectedRec : MatchRec := ⟨1, 2, "rejected", [], none⟩

lemma distancePoints_le (d : ℚ) : distancePoints d ≤ 30 := by
  unfold distancePoints
  repeat' split
  all_goals omega

lemma availabilityPoints_le (a : String) : availabilityPoints a ≤ 30 := by
  unfold availabilityPoints
  repeat' split
  all_goals omega

lemma compatPointsAux_le (rb : Option String) (db : String) :
    (match rb with
     | some bt => if db ∈ getCompatibleBloodTypes bt then 40 else 0
     | none => 0) ≤ 40 := by
  cases rb with
  | none => norm_num
  | some bt => by_cases hm : db ∈ getCompatibleBloodTypes bt <;> simp [hm]

lemma distancePoints_lt10 (d : ℚ) (h : d < 10) : distancePoints d = 30 := by
  unfold distancePoints
  rw [if_pos h]

lemma distancePoints_10_25 (d : ℚ) (h1 : 10 ≤ d) (h2 : d < 25) : distancePoints d = 20 := by
  unfold distancePoints
  rw [if_neg (not_lt.mpr h1), if_pos h2]

lemma distancePoints_25_50 (d : ℚ) (h1 : 25 ≤ d) (h2 : d < 50) : distancePoints d = 10 := by
  unfold distancePoints
  rw [if_neg (not_lt.mpr (le_trans (by norm_num) h1)),
      if_neg (not_lt.mpr h1), if_pos h2]

lemma distancePoints_ge50 (d : ℚ) (h : 50 ≤ d) : distancePoints d = 0 := by
  unfold distancePoints
  rw [if_neg (not_lt.mpr (le_trans (by norm_num) h)),
      if_neg (not_lt.mpr (le_trans (by norm_num) h)),
      if_neg (not_lt.mpr h)]

lemma distancePoints_lt25_ge (d : ℚ) (h : d < 25) : 20 ≤ distancePoints d := by
  unfold distancePoints
  by_cases h10 : d < 10
  · simp [if_pos h10]
  · rw [if_neg h10, if_pos h]

lemma distancePoints_lt50_ge (d : ℚ) (h : d < 50) : 10 ≤ distancePoints d := by
  unfold distancePoints
  by_cases h10 : d < 10
  · simp [if_pos h10]
  · by_cases h25 : d < 25
    · simp [if_neg h10, if_pos h25]
    · rw [if_neg h10, if_neg h25, if_pos h]

lemma calculateMatchScore_unclamped (dist : ℚ × ℚ → ℚ × ℚ → ℚ)
    (request : RequestQuery) (p : DonorProfile) (h l : ℚ × ℚ)
    (hh : request.hospitalLocation = some h) (hl : p.location = some l) :
    calculateMatchScore dist request p =
      (match request.bloodType with
       | some bt => if p.bloodType ∈ getCompatibleBloodTypes bt then 40 else 0
       | none => 0) + distancePoints (dist h l) + availabilityPoints p.availability := by
  unfold calculateMatchScore
  rw [hh, hl]
  dsimp only
  exact Nat.min_eq_right (by
    have h1 := compatPointsAux_le request.bloodType p.bloodType
    have h2 := distancePoints_le (dist h l)
    have h3 := availabilityPoints_le p.availability
    omega)

lemma patchMatchStatus_admin (actorId : Nat) (m : MatchRec) (r : RequestRec)
    (s n : String) (hs : s ∈ matchStatusEnum) :
    patchMatchStatus ⟨actorId, "admin", none⟩ m r s n =
      .ok ({ m with
             status := s,
             statusHistory := m.statusHistory ++ [⟨s, actorId, n⟩] },
           if s == "rejected" then { r with status := "searching" } else r) := by
  unfold patchMatchStatus updateMatchStatus matchPermission
  simp [hs]

/-- C3: for every requested blood type and every donor blood type among the
eight fixed values, the eligibility list getCompatibleBloodTypes accepts the
donor exactly when the Glossary compatibility table relates the donor type to
the requested type. -/
theorem compat_agrees_with_glossary (req donor : String)
    (h1 : req ∈ bloodTypes) (h2 : donor ∈ bloodTypes) :
    donor ∈ getCompatibleBloodTypes req ↔ req ∈ glossaryCompatibleRequesters donor := by
  fin_cases h1 <;> fin_cases h2 <;> decide

/-- Witness for C3 at the pair requested A positive, donor O negative. -/
theorem compat_agrees_with_glossary_witness :
    "A+" ∈ bloodTypes ∧ "O-" ∈ bloodTypes ∧
      ("O-" ∈ getCompatibleBloodTypes "A+" ↔ "A+" ∈ glossaryCompatibleRequesters "O-") :=
  ⟨by decide, by decide, compat_agrees_with_glossary "A+" "O-" (by decide) (by decide)⟩

/-- C4: when both coordinate pairs are present, the match score is an integer
at most 100; holding the other factors fixed it strictly decreases as the
distance produced by the distance function crosses the 10, 25 and 50 km tier
boundaries, with a zero distance contribution at 50 km or more; and a
compatible donor under 10 km with immediate availability scores exactly 100. -/
theorem calculateMatchScore_props (request : RequestQuery) (p : DonorProfile)
    (h l : ℚ × ℚ) (hh : request.hospitalLocation = some h) (hl : p.location = some l) :
    (∀ dist, calculateMatchScore dist request p ≤ 100) ∧
    (∀ d1 d2 : ℚ, d1 < 10 → 10 ≤ d2 → d2 < 25 →
      calculateMatchScore (fun _ _ => d2) request p <
        calculateMatchScore (fun _ _ => d1) request p) ∧
    (∀ d1 d2 : ℚ, d1 < 25 → 25 ≤ d2 → d2 < 50 →
      calculateMatchScore (fun _ _ => d2) request p <
        calculateMatchScore (fun _ _ => d1) request p) ∧
    (∀ d1 d2 : ℚ, d1 < 50 → 50 ≤ d2 →
      calculateMatchScore (fun _ _ => d2) request p <
        calculateMatchScore (fun _ _ => d1) request p) ∧
    (∀ d : ℚ, 50 ≤ d → distancePoints d = 0) ∧
    (∀ (bt : String) (d : ℚ), request.bloodType = some bt →
      p.bloodType ∈ getCompatibleBloodTypes bt → d < 10 → p.availability = "immediate" →
      calculateMatchScore (fun _ _ => d) request p = 100) := by
  have hle : ∀ dist, calculateMatchScore dist request p ≤ 100 := by
    intro dist
    unfold calculateMatchScore
    exact Nat.min_le_left 100 _
  refine ⟨hle, ?_, ?_, ?_, ?_, ?_⟩
  · intro d1 d2 ha hb hc
    rw [calculateMatchScore_unclamped (fun _ _ => d1) request p h l hh hl,
        calculateMatchScore_unclamped (fun _ _ => d2) request p h l hh hl,
        distancePoints_lt10 d1 ha, distancePoints_10_25 d2 hb hc]
    omega
  · intro d1 d2 ha hb hc
    rw [calculateMatchScore_unclamped (fun _ _ => d1) request p h l hh hl,
        calculateMatchScore_unclamped (fun _ _ => d2) request p h l hh hl,
        distancePoints_25_50 d2 hb hc]
    have := distancePoints_lt25_ge d1 ha
    omega
  · intro d1 d2 ha hb
    rw [calculateMatchScore_unclamped (fun _ _ => d1) request p h l hh hl,
        calculateMatchScore_unclamped (fun _ _ => d2) request p h l hh hl,
        distancePoints_ge50 d2 hb]
    have := distancePoints_lt50_ge d1 ha
    omega
  · exact distancePoints_ge50
  · intro bt d hbt hmem hd him
    rw [calculateMatchScore_unclamped (fun _ _ => d) request p h l hh hl,
        hbt, distancePoints_lt10 d hd, him]
    simp [hmem, availabilityPoints]

/-- Witness for C4: a compatible O negative immediate donor 5 km from the
hospital scores exactly 100. -/
theorem calculateMatchScore_props_witness :
    reqBloodOLoc.hospitalLocation = some (0, 0) ∧ donorNear.location = some (0, 0) ∧
      calculateMatchScore (fun _ _ => (5 : ℚ)) reqBloodOLoc donorNear = 100 :=
  ⟨rfl, rfl,
    (calculateMatchScore_props reqBloodOLoc donorNear (0, 0) (0, 0) rfl rfl).2.2.2.2.2
      "O-" 5 rfl (by decide) (by norm_num) rfl⟩

/-- C1: the request status-update endpoint performs no transition-graph or
terminal-status check at all; for an administrator actor, every target status
in the route enum is applied from every current status, the status field is
overwritten and exactly one history entry is appended. -/
theorem updateRequestStatus_no_transition_check (actorId : Nat) (r : RequestRec)
    (s n : String) (hs : s ∈ requestStatusEnum) :
    patchRequestStatus ⟨actorId, "admin", none⟩ r s n =
      .ok { r with
            status := s,
            statusHistory := r.statusHistory ++ [⟨s, actorId, n⟩] } := by
  unfold patchRequestStatus updateRequestStatus
  simp [hs]

/-- Witness for C1 at a completed (terminal) Request moved back to pending. -/
theorem updateRequestStatus_no_transition_check_witness :
    "pending" ∈ requestStatusEnum ∧
      patchRequestStatus ⟨9, "admin", none⟩ reqCompleted "pending" "" =
        .ok { reqCompleted with
              status := "pending",
              statusHistory := [⟨"pending", 9, ""⟩] } :=
  ⟨by decide, updateRequestStatus_no_transition_check 9 reqCompleted "pending" "" (by decide)⟩

/-- Counterexample for C1: the pair (completed, pending) is not an edge of the
Request transition graph and completed is terminal, yet the status update
succeeds and mutates the Request instead of failing with InvalidTransition. -/
theorem requestStatus_invalid_transition_accepted_cex :
    specRequestEdge "completed" "pending" = false ∧
      patchRequestStatus adminActor reqCompleted "pending" "" =
        .ok { hospital := 5, status := "pending",
              statusHistory := [⟨"pending", 9, ""⟩], matchIds := [] } ∧
      ({ hospital := 5, status := "pending",
         statusHistory := [⟨"pending", 9, ""⟩], matchIds := [] } : RequestRec) ≠ reqCompleted :=
  ⟨rfl, rfl, by decide⟩

/-- C2: the match status-update endpoint performs no transition-graph check;
for an administrator actor every target status in the route enum is accepted
from every current status, including the terminal ones, with exactly one
history entry appended; when the target is rejected the owning Request is set
to searching, otherwise it is untouched. The only status-set restriction in
the controller is role based (donor actors are limited to
pending_confirmation, confirmed and rejected). -/
theorem updateMatchStatus_no_graph_check (actorId : Nat) (m : MatchRec) (r : RequestRec)
    (s n : String) (hs : s ∈ matchStatusEnum) :
    patchMatchStatus ⟨actorId, "admin", none⟩ m r s n =
      .ok ({ m with
             status := s,
             statusHistory := m.statusHistory ++ [⟨s, actorId, n⟩] },
           if s == "rejected" then { r with status := "searching" } else r) :=
  patchMatchStatus_admin actorId m r s n hs

/-- Witness for C2: a transplanted (terminal) Match is moved to confirmed. -/
theorem updateMatchStatus_no_graph_check_witness :
    "confirmed" ∈ matchStatusEnum ∧
      patchMatchStatus ⟨9, "admin", none⟩ matchTransplanted reqMatched "confirmed" "" =
        .ok ({ matchTransplanted with
               status := "confirmed",
               statusHistory := [⟨"confirmed", 9, ""⟩] },
             reqMatched) :=
  ⟨by decide,
   updateMatchStatus_no_graph_check 9 matchTransplanted reqMatched "confirmed" "" (by decide)⟩

/-- Counterexample for C2: transplanted is terminal and (transplanted,
proposed) is not an edge of the Match transition graph, yet the update
succeeds for an administrator actor instead of being rejected. -/
theorem matchStatus_invalid_transition_accepted_cex :
    specMatchEdge "transplanted" "proposed" = false ∧
      "transplanted" ∈ terminalMatchStatuses ∧
      patchMatchStatus adminActor matchTransplanted reqMatched "proposed" "" =
        .ok ({ matchTransplanted with
               status := "proposed",
               statusHistory := [⟨"proposed", 9, ""⟩] },
             reqMatched) :=
  ⟨rfl, by decide, rfl⟩

/-- C6: transitioning a Match to rejected unconditionally sets the owning
Request status to searching, whatever the current Request status is,
terminal statuses included; no history entry is appended to the Request. -/
theorem matchRejected_request_searching (actorId : Nat) (m : MatchRec) (r : RequestRec)
    (n : String) :
    patchMatchStatus ⟨actorId, "admin", none⟩ m r "rejected" n =
      .ok ({ m with
             status := "rejected",
             statusHistory := m.statusHistory ++ [⟨"rejected", actorId, n⟩] },
           { r with status := "searching" }) :=
  patchMatchStatus_admin actorId m r "rejected" n (by decide)

/-- Counterexample for C6: when the owning Request is already cancelled
(terminal), rejecting the Match still overwrites the Request status with
searching instead of leaving the Request unchanged. -/
theorem matchRejected_terminal_request_cex :
    reqCancelled.status = "cancelled" ∧
      patchMatchStatus adminActor matchProposed reqCancelled "rejected" "" =
        .ok ({ matchProposed with
               status := "rejected",
               statusHistory := [⟨"rejected", 9, ""⟩] },
             { reqCancelled with status := "searching" }) ∧
      ({ reqCancelled with status := "searching" } : RequestRec) ≠ reqCancelled :=
  ⟨rfl, rfl, by decide⟩

/-- C7: reporting a successful outcome sets the Match status to the string
completed, not transplanted, and the owning Request status to fulfilled, not
completed; the strings the code writes are not members of the status enums
declared by the repositories own route validators, which do contain
transplanted and completed respectively. Exactly one history entry is
appended to the Match. -/
theorem reportOutcome_wrong_status_names :
    reportOutcome adminActor matchDelivered (some reqInProgress) true "done" =
      .ok ({ matchDelivered with
             status := "completed",
             outcome := some ⟨true, 9, "done"⟩,
             statusHistory := [⟨"completed", 9, "done"⟩] },
           some { reqInProgress with status := "fulfilled" }) ∧
    "completed" ∉ matchStatusEnum ∧
    "fulfilled" ∉ requestStatusEnum ∧
    "transplanted" ∈ matchStatusEnum ∧
    "completed" ∈ requestStatusEnum ∧
    reportOutcome adminActor matchDelivered (some reqInProgress) false "no" =
      .ok ({ matchDelivered with
             status := "failed",
             outcome := some ⟨false, 9, "no"⟩,
             statusHistory := [⟨"failed", 9, "no"⟩] },
           some { reqInProgress with status := "searching" }) :=
  ⟨rfl, by decide, by decide, by decide, by decide, rfl⟩

/-- C8: the duplicate check of confirmMatch fires exactly when some existing
Match records the same (Request, Donor) pair, with no regard to whether that
Match is terminal; when no such Match exists a new proposed Match is created
and the Request is set to matched. -/
theorem confirmMatch_duplicate_any_status (actorId : Nat) (ms : List MatchRec)
    (r : RequestRec) (requestId donorId newId : Nat) :
    (duplicateExists ms requestId donorId = true ↔
      ∃ m ∈ ms, m.request = requestId ∧ m.donor = donorId) ∧
    (duplicateExists ms requestId donorId = true →
      confirmMatch ⟨actorId, "admin", none⟩ ms r requestId donorId newId =
        .error "Match already exists for this donor and request") ∧
    (duplicateExists ms requestId donorId = false →
      confirmMatch ⟨actorId, "admin", none⟩ ms r requestId donorId newId =
        .ok ({ request := requestId, donor := donorId, status := "proposed",
               statusHistory := [], outcome := none },
             { r with status := "matched", matchIds := r.matchIds ++ [newId] })) := by
  refine ⟨?_, ?_, ?_⟩
  · simp [duplicateExists, List.any_eq_true]
  · intro hdup
    unfold confirmMatch
    rw [show ms.any (fun m => m.request == requestId && m.donor == donorId) = true
          from hdup]
    simp
  · intro hdup
    unfold confirmMatch
    rw [show ms.any (fun m => m.request == requestId && m.donor == donorId) = false
          from hdup]
    simp

/-- Witness for C8: with one rejected (terminal) Match on the pair, the
duplicate error still fires; with no Match on the pair, creation succeeds. -/
theorem confirmMatch_duplicate_any_status_witness :
    duplicateExists [matchRejectedRec] 1 2 = true ∧
      confirmMatch ⟨9, "admin", none⟩ [matchRejectedRec] reqSearching 1 2 5 =
        .error "Match already exists for this donor and request" ∧
      duplicateExists [] 1 2 = false ∧
      confirmMatch ⟨9, "admin", none⟩ [] reqSearching 1 2 5 =
        .ok ({ request := 1, donor := 2, status := "proposed",
               statusHistory := [], outcome := none },
             { reqSearching with status := "matched", matchIds := [5] }) :=
  ⟨by decide,
   (confirmMatch_duplicate_any_status 9 [matchRejectedRec] reqSearching 1 2 5).2.1 (by decide),
   by decide,
   (confirmMatch_duplicate_any_status 9 [] reqSearching 1 2 5).2.2 (by decide)⟩

/-- Counterexample for C8: every existing Match for the pair (1, 2) is
terminal, so the claim says a new Match may be created, but confirmMatch
fails with the duplicate error. -/
theorem confirmMatch_terminal_still_blocks_cex :
    (∀ m ∈ [matchRejectedRec], m.status ∈ terminalMatchStatuses) ∧
      confirmMatch adminActor [matchRejectedRec] reqSearching 1 2 5 =
        .error "Match already exists for this donor and request" :=
  ⟨by decide, rfl⟩

/-- C5: findPotentialMatches returns the eligible donors in donor-population
order with a score attached to each; it applies no sorting and no
tie-breaking, and an all-ineligible population yields the empty sequence
rather than an error. -/
theorem findPotentialMatches_order_and_empty (dist : ℚ × ℚ → ℚ × ℚ → ℚ)
    (request : RequestQuery) (users : List UserRec) (now : Int) :
    ((findPotentialMatches dist request users now).map Candidate.donorId =
      (users.filter (eligibleUser request now)).map UserRec.id) ∧
    ((∀ u ∈ users, eligibleUser request now u = false) →
      findPotentialMatches dist request users now = []) := by
  constructor
  · unfold findPotentialMatches
    rw [List.map_map]
    rfl
  · intro hall
    unfold findPotentialMatches
    rw [List.filter_eq_nil_iff.mpr (fun u hu => by rw [hall u hu]; exact Bool.false_ne_true)]
    rfl

/-- Witness for C5 at a population containing one ineligible donor. -/
theorem findPotentialMatches_order_and_empty_witness :
    (∀ u ∈ [userNeverDonated], eligibleUser reqBloodO now100 u = false) ∧
      findPotentialMatches distZero reqBloodO [userNeverDonated] now100 = [] :=
  ⟨by decide,
   (findPotentialMatches_order_and_empty distZero reqBloodO [userNeverDonated] now100).2
     (by decide)⟩

/-- Counterexample for C5: a population whose first donor scores 60 and whose
second scores 70 is returned in that order, so the candidate sequence is not
sorted in descending order of score. -/
theorem findPotentialMatches_unsorted_cex :
    findPotentialMatches distZero reqBloodO [userFlexible, userImmediate] now100 =
      [⟨1, 60⟩, ⟨2, 70⟩] ∧
      sortedDescByScore
        (findPotentialMatches distZero reqBloodO [userFlexible, userImmediate] now100) =
        false :=
  ⟨rfl, rfl⟩

/-- C9: the candidate search never consults the isAvailable flag declared in
the Donor schema; a donor document whose isAvailable is false but whose
availableForBloodDonation field (queried by the search, yet absent from the
Donor schema) is true is returned as a candidate. -/
theorem findPotentialMatches_returns_unavailable_donor :
    userUnavailable.donorProfile.isAvailable = false ∧
      findPotentialMatches distZero reqBloodO [userUnavailable] now100 = [⟨42, 70⟩] :=
  ⟨rfl, rfl⟩

/-- C10: for a blood request, a donor profile with no recorded last
blood-donation date never passes the filter of findPotentialMatches, so an
all-never-donated population yields no candidates; conversely every donor who
passes the filter has a recorded date lying strictly more than 56 days before
the scenario clock. -/
theorem neverDonated_excluded (request : RequestQuery) (now : Int)
    (hb : request.requestType = "blood") :
    (∀ u : UserRec, u.donorProfile.lastBloodDonationDate = none →
      eligibleUser request now u = false) ∧
    (∀ u : UserRec, eligibleUser request now u = true →
      ∃ d, u.donorProfile.lastBloodDonationDate = some d ∧ d < bloodDeferralCutoff now) ∧
    (∀ (dist : ℚ × ℚ → ℚ × ℚ → ℚ) (users : List UserRec),
      (∀ u ∈ users, u.donorProfile.lastBloodDonationDate = none) →
      findPotentialMatches dist request users now = []) := by
  have h1 : ∀ u : UserRec, u.donorProfile.lastBloodDonationDate = none →
      eligibleUser request now u = false := by
    intro u hu
    simp [eligibleUser, matchCriteria, bloodCriteria, hb, hu]
  refine ⟨h1, ?_, ?_⟩
  · intro u hu
    cases hod : u.donorProfile.lastBloodDonationDate with
    | none => rw [h1 u hod] at hu; exact absurd hu Bool.false_ne_true
    | some d =>
      refine ⟨d, rfl, ?_⟩
      simp [eligibleUser, matchCriteria, bloodCriteria, hb, hod] at hu
      tauto
  · intro dist users hall
    unfold findPotentialMatches
    rw [List.filter_eq_nil_iff.mpr
      (fun u hu => by rw [h1 u (hall u hu)]; exact Bool.false_ne_true)]
    rfl

/-- Witness for C10 at a single never-donated donor. -/
theorem neverDonated_excluded_witness :
    reqBloodO.requestType = "blood" ∧
      userNeverDonated.donorProfile.lastBloodDonationDate = none ∧
      eligibleUser reqBloodO now100 userNeverDonated = false ∧
      findPotentialMatches distZero reqBloodO [userNeverDonated] now100 = [] :=
  ⟨rfl, rfl,
   (neverDonated_excluded reqBloodO now100 rfl).1 userNeverDonated rfl,
   (neverDonated_excluded reqBloodO now100 rfl).2.2 distZero [userNeverDonated] (by decide)⟩

end BloodOrgan
